import Mathlib

/-!
Shallow embedding of `src/scripts/wms.py`: a WMS tile downloader.

Modelling conventions:
* Python floats are embedded as exact rationals `ℚ` (the claims are about the
  arithmetic, which is exact on the inputs considered).
* The filesystem is an association list from filenames to file contents;
  `os.path.isfile`, writes and `os.remove` act on it explicitly.
* The HTTP client (`requests.get`) is an oracle passed in as a parameter: the
  response the server would give.  The number of HTTP calls made is recorded
  in the outcome.
* The GDAL conversion (`gdal.Open`/`gdal.Translate`) is an oracle
  `convert : String → Option String` from raw image bytes to JPEG bytes;
  `none` models the conversion step raising an exception.
* Python exceptions surface as an `Except`-style `result` field of the
  outcome, together with the filesystem and HTTP-call trace at raise time.
-/

/-- Python `str.split(sep)` for a one-character separator, on char lists:
`"".split(",") = [""]`, `"a,b".split(",") = ["a","b"]`. -/
def splitChar (sep : Char) : List Char → List (List Char)
  | [] => [[]]
  | c :: rest =>
    let r := splitChar sep rest
    if c = sep then [] :: r
    else
      match r with
      | [] => [[c]]
      | h :: t => (c :: h) :: t

/-- Python `str.split(sep)` on `String`, single-character separator. -/
def pySplit (s : String) (sep : Char) : List String :=
  (splitChar sep s.toList).map (fun cs => ⟨cs⟩)

/-- Helper for `pyReplace`: fuel-indexed replacement of every occurrence of
`pat` in a char list (Python `str.replace` semantics for a non-empty
pattern). The fuel is the length of the list, which suffices. -/
def replaceListAux (pat repl : List Char) : Nat → List Char → List Char
  | _, [] => []
  | 0, cs => cs
  | fuel + 1, c :: rest =>
    if pat.isPrefixOf (c :: rest) then
      repl ++ replaceListAux pat repl fuel ((c :: rest).drop pat.length)
    else
      c :: replaceListAux pat repl fuel rest

/-- Python `str.replace(pat, repl)` (replaces every occurrence). -/
def pyReplace (s pat repl : String) : String :=
  ⟨replaceListAux pat.toList repl.toList s.toList.length s.toList⟩

/-- Python `str.endswith(suffix)`. -/
def pyEndsWith (s suffix : String) : Bool :=
  suffix.toList.isSuffixOf s.toList

/-- Numeric value of a list of decimal digit characters (total helper). -/
def digitsVal (cs : List Char) : Nat :=
  cs.foldl (fun acc c => acc * 10 + (c.toNat - 48)) 0

/-- Python `float(s)` restricted to plain decimal notation
`[-]digits[.digits]`, returning an exact rational; `none` models a
`ValueError`. -/
def pyFloat (s : String) : Option ℚ :=
  let core : List Char → Option ℚ := fun cs =>
    let ip := cs.takeWhile (fun c => c ≠ '.')
    let rest := cs.dropWhile (fun c => c ≠ '.')
    match rest with
    | [] =>
      if ip ≠ [] ∧ ip.all Char.isDigit then some ((digitsVal ip : ℚ)) else none
    | _ :: fp =>
      if (ip ≠ [] ∨ fp ≠ []) ∧ ip.all Char.isDigit ∧ fp.all Char.isDigit then
        some ((digitsVal ip : ℚ) + (digitsVal fp : ℚ) / (10 : ℚ) ^ fp.length)
      else none
  match s.toList with
  | '-' :: cs => (core cs).map Neg.neg
  | cs => core cs

/-- Python `int(q)` on a float: truncation toward zero. -/
def pyInt (q : ℚ) : ℤ :=
  if 0 ≤ q then ⌊q⌋ else ⌈q⌉

/-- `bbox.split(',')` followed by `float(x)` on each part and unpacking into
four variables (`wms.py` line 76); `none` models the `ValueError` raised
when a part is not a float or the count is not four. -/
def parseBbox (bbox : String) : Option (ℚ × ℚ × ℚ × ℚ) :=
  match (pySplit bbox ',').mapM pyFloat with
  | some [a, b, c, d] => some (a, b, c, d)
  | _ => none

-- ---- Data model ----

structure SpatialReference where
  latestWkid : String
deriving DecidableEq

structure Extent where
  xmin : ℚ
  ymin : ℚ
  xmax : ℚ
  ymax : ℚ
  spatialReference : SpatialReference
deriving DecidableEq

/-- The `image_metadata` dict built in `get_jpeg` (`wms.py` lines 77-87). -/
structure ImageMetadata where
  width : ℕ
  height : ℕ
  extent : Extent
deriving DecidableEq

/-- Python JSON values as written by `json.dump` (ints, floats, strings and
objects suffice for this program). -/
inductive PyJson where
  | int (n : ℕ)
  | num (q : ℚ)
  | str (s : String)
  | obj (fields : List (String × PyJson))

/-- The JSON tree `json.dump(image_metadata, fp)` persists (`wms.py`
line 100): field order follows the dict construction order. -/
def json_dump_metadata (md : ImageMetadata) : PyJson :=
  .obj [("width", .int md.width), ("height", .int md.height),
        ("extent", .obj
          [("xmin", .num md.extent.xmin), ("ymin", .num md.extent.ymin),
           ("xmax", .num md.extent.xmax), ("ymax", .num md.extent.ymax),
           ("spatialReference", .obj
             [("latestWkid", .str md.extent.spatialReference.latestWkid)])])]

def PyJson.getField : PyJson → String → Option PyJson
  | .obj fields, k => fields.lookup k
  | _, _ => none

def PyJson.asInt : PyJson → Option ℕ
  | .int n => some n
  | _ => none

def PyJson.asNum : PyJson → Option ℚ
  | .num q => some q
  | _ => none

def PyJson.asStr : PyJson → Option String
  | .str s => some s
  | _ => none

/-- Reloading a persisted metadata JSON tree into an `ImageMetadata`
(`json.load` followed by the obvious field accesses). -/
def json_load_metadata (j : PyJson) : Option ImageMetadata := do
  let width ← (← j.getField "width").asInt
  let height ← (← j.getField "height").asInt
  let ext ← j.getField "extent"
  let xmin ← (← ext.getField "xmin").asNum
  let ymin ← (← ext.getField "ymin").asNum
  let xmax ← (← ext.getField "xmax").asNum
  let ymax ← (← ext.getField "ymax").asNum
  let sr ← ext.getField "spatialReference"
  let wkid ← (← sr.getField "latestWkid").asStr
  some ⟨width, height, ⟨xmin, ymin, xmax, ymax, ⟨wkid⟩⟩⟩

-- ---- bounds_to_bbox and the world file (wms.py lines 20-37) ----

/-- `bounds_to_bbox` (`wms.py` lines 20-23): comma-joined
`xmin,ymin,xmax,ymax` string. -/
def bounds_to_bbox (bounds : ℚ × ℚ × ℚ × ℚ) : String :=
  let (xmin, ymin, xmax, ymax) := bounds
  toString xmin ++ "," ++ toString ymin ++ "," ++ toString xmax ++ ","
    ++ toString ymax

/-- `image_metadata_to_world_file` (`wms.py` lines 25-37), embedded as the
list of the six numeric lines of the world file: the f-string
`f"{x_res}\n0.0\n0.0\n{-y_res}\n{xmin}\n{ymax}\n"` puts each value on its
own line with a trailing newline. -/
def image_metadata_to_world_file (md : ImageMetadata) : List ℚ :=
  let xmin := md.extent.xmin
  let ymin := md.extent.ymin
  let xmax := md.extent.xmax
  let ymax := md.extent.ymax
  let x_res := (xmax - xmin) / (md.width : ℚ)
  let y_res := (ymax - ymin) / (md.height : ℚ)
  [x_res, 0, 0, -y_res, xmin, ymax]

/-- The world-file text written to the `.jgw` file: each line followed by a
newline (so a trailing newline ends the file). -/
def world_file_text (md : ImageMetadata) : String :=
  String.join ((image_metadata_to_world_file md).map
    (fun q => toString q ++ "\n"))

-- ---- Filesystem model ----

inductive FileContent where
  | bytes (data : String)
  | text (data : String)
  | json (j : PyJson)

/-- The filesystem: an association list from filenames to contents; a write
shadows older entries. -/
abbrev FS := List (String × FileContent)

def fsRead (fs : FS) (name : String) : Option FileContent :=
  fs.lookup name

/-- `os.path.isfile`. -/
def os_path_isfile (fs : FS) (name : String) : Bool :=
  (fsRead fs name).isSome

/-- `open(name, 'w')` / `open(name, 'wb')` followed by a full write. -/
def fsWrite (fs : FS) (name : String) (c : FileContent) : FS :=
  (name, c) :: fs

/-- `os.remove(name)`. -/
def fsRemove (fs : FS) (name : String) : FS :=
  fs.filter (fun p => p.1 != name)

/-- `os.path.join(dir, name)` for the relative-path uses in this program. -/
def os_path_join (dir name : String) : String :=
  if dir = "" then name
  else if pyEndsWith dir "/" then dir ++ name
  else dir ++ "/" ++ name

-- ---- Exceptions, HTTP oracle, outcome ----

/-- Python exceptions that `get_jpeg` can raise. -/
inductive PyError where
  | badFileExtensionException (msg : String)
  | indexError
  | valueError
deriving DecidableEq

/-- The response `requests.get` would return: the HTTP oracle. -/
structure HttpResponse where
  status_code : ℕ
  content : String

/-- Result of one `get_jpeg` call: the returned value (`.ok none` for the
skip path returning Python `None`, `.ok (some [])` for the failure dict
`{}`, `.ok (some [(f, md)])` for `{f: md}`, `.error e` for a raised
exception), together with the filesystem afterwards, the number of HTTP
requests issued and the warnings logged. -/
structure FetchOutcome where
  result : Except PyError (Option (List (String × ImageMetadata)))
  fs : FS
  httpCalls : ℕ
  logs : List String

/-- The skip test of `wms.py` lines 55-60. -/
def skipCheck (fs : FS) (save_metadata overwrite : Bool)
    (jpeg_filename md_filename : String) : Bool :=
  if save_metadata then
    !overwrite && os_path_isfile fs jpeg_filename
      && os_path_isfile fs md_filename
  else
    !overwrite && os_path_isfile fs jpeg_filename

-- ---- get_jpeg (wms.py lines 44-113) ----

/-- `get_jpeg` (`wms.py` lines 44-113).  `http` is the response oracle for
the single `requests.get`; `convert` is the GDAL re-encode oracle mapping
the raw PNG bytes to JPEG bytes, `none` modelling `gdal.Translate`
raising (caught and logged at lines 106-107).  Note `os.remove(png)` at
line 109 sits outside the `try`, so it runs on both conversion branches. -/
def get_jpeg (http : HttpResponse) (convert : String → Option String)
    (fs : FS) (wms_url layers bbox : String) (width height : ℕ)
    (filename : String) (srs : String) (save_metadata overwrite : Bool) :
    FetchOutcome :=
  if ¬ pyEndsWith filename ".jpg" then
    ⟨.error (.badFileExtensionException "Filename must end with .jpg"),
      fs, 0, []⟩
  else
    let png_filename := pyReplace filename ".jpg" "_.png"
    let jgw_filename := pyReplace filename ".jpg" ".jgw"
    let md_filename := pyReplace filename ".jpg" ".json"
    let jpeg_filename := filename
    if skipCheck fs save_metadata overwrite jpeg_filename md_filename then
      ⟨.ok none, fs, 0, []⟩
    else
      match parseBbox bbox with
      | none => ⟨.error .valueError, fs, 0, []⟩
      | some (xmin, ymin, xmax, ymax) =>
        match (pySplit srs ':')[1]? with
        | none => ⟨.error .indexError, fs, 0, []⟩
        | some wkid =>
          let image_metadata : ImageMetadata :=
            ⟨width, height, ⟨xmin, ymin, xmax, ymax, ⟨wkid⟩⟩⟩
          if http.status_code = 200 then
            let fs1 := fsWrite fs png_filename (.bytes http.content)
            let fs2 := fsWrite fs1 jgw_filename
              (.text (world_file_text image_metadata))
            let fs3 :=
              if save_metadata then
                fsWrite fs2 md_filename
                  (.json (json_dump_metadata image_metadata))
              else fs2
            match convert http.content with
            | some jpeg_bytes =>
              ⟨.ok (some [(jpeg_filename, image_metadata)]),
                fsRemove (fsWrite fs3 jpeg_filename (.bytes jpeg_bytes))
                  png_filename, 1, []⟩
            | none =>
              ⟨.ok (some [(jpeg_filename, image_metadata)]),
                fsRemove fs3 png_filename, 1, ["GDAL error"]⟩
          else
            ⟨.ok (some []), fs, 1,
              ["Failed: HTTP " ++ toString http.status_code]⟩

-- ---- download_wms_grid: grid planning (wms.py lines 117-149) ----

/-- One planned grid cell: its indices, map-unit bounds, the bbox string
passed to `get_jpeg` and the output filename. -/
structure GridCall where
  row : ℕ
  col : ℕ
  tile_xmin : ℚ
  tile_ymin : ℚ
  tile_xmax : ℚ
  tile_ymax : ℚ
  bbox : String
  filename : String
deriving DecidableEq

/-- The body of the nested loops of `download_wms_grid` (`wms.py` lines
143-149): bounds, bbox string and filename of cell `(row, col)`. -/
def grid_cell (full_bounds : ℚ × ℚ × ℚ × ℚ) (tile_size_x tile_size_y : ℚ)
    (output_dir pre : String) (row col : ℕ) : GridCall :=
  let (xmin, _ymin, _xmax, ymax) := full_bounds
  let tile_xmin := xmin + (col : ℚ) * tile_size_x
  let tile_xmax := tile_xmin + tile_size_x
  let tile_ymax := ymax - (row : ℚ) * tile_size_y
  let tile_ymin := tile_ymax - tile_size_y
  { row := row, col := col,
    tile_xmin := tile_xmin, tile_ymin := tile_ymin,
    tile_xmax := tile_xmax, tile_ymax := tile_ymax,
    bbox := bounds_to_bbox (tile_xmin, tile_ymin, tile_xmax, tile_ymax),
    filename := os_path_join output_dir
      (pre ++ "_" ++ toString row ++ "_" ++ toString col ++ ".jpg") }

/-- The grid arithmetic of `download_wms_grid` (`wms.py` lines 124-149):
resolutions, tile sizes in map units, truncated cell counts, and the list
of cells in dispatch order (row-major: rows outer, columns inner; `pre`
models the `prefix` argument, a Lean keyword). -/
structure GridPlan where
  x_res : ℚ
  y_res : ℚ
  tile_size_x : ℚ
  tile_size_y : ℚ
  cols : ℤ
  rows : ℤ
  calls : List GridCall

def grid_plan (full_bounds : ℚ × ℚ × ℚ × ℚ) (width height tile_px : ℕ)
    (output_dir pre : String) : GridPlan :=
  let (xmin, ymin, xmax, ymax) := full_bounds
  let x_res := (xmax - xmin) / (width : ℚ)
  let y_res := (ymax - ymin) / (height : ℚ)
  let tile_size_x := (tile_px : ℚ) * x_res
  let tile_size_y := (tile_px : ℚ) * y_res
  let cols := pyInt ((xmax - xmin) / tile_size_x)
  let rows := pyInt ((ymax - ymin) / tile_size_y)
  { x_res := x_res, y_res := y_res,
    tile_size_x := tile_size_x, tile_size_y := tile_size_y,
    cols := cols, rows := rows,
    calls := (List.range rows.toNat).flatMap (fun row =>
      (List.range cols.toNat).map (fun col =>
        grid_cell full_bounds tile_size_x tile_size_y output_dir pre
          row col)) }

/-- Result of a grid run: `.error e` when an exception raised by some
cell's `get_jpeg` propagated out of the loop (there is no `try` around the
call at `wms.py` line 151), plus the filesystem, the HTTP-call count, the
number of cells whose `get_jpeg` call was started, and the logs. -/
structure GridOutcome where
  result : Except PyError Unit
  fs : FS
  httpCalls : ℕ
  dispatched : ℕ
  logs : List String

/-- The nested dispatch loops of `download_wms_grid` (`wms.py` lines
141-161), running `get_jpeg` on each planned cell in order; an exception
aborts the remaining cells. -/
def run_calls (http : HttpResponse) (convert : String → Option String)
    (wms_url layers srs : String) (tile_px : ℕ)
    (save_metadata overwrite : Bool) :
    List GridCall → FS → GridOutcome
  | [], fs => ⟨.ok (), fs, 0, 0, []⟩
  | c :: rest, fs =>
    let o := get_jpeg http convert fs wms_url layers c.bbox tile_px tile_px
      c.filename srs save_metadata overwrite
    match o.result with
    | .error e => ⟨.error e, o.fs, o.httpCalls, 1, o.logs⟩
    | .ok _ =>
      let g := run_calls http convert wms_url layers srs tile_px
        save_metadata overwrite rest o.fs
      ⟨g.result, g.fs, o.httpCalls + g.httpCalls, 1 + g.dispatched,
        o.logs ++ g.logs⟩

/-- `download_wms_grid` (`wms.py` lines 117-161): plan the grid, then fetch
every cell sequentially. -/
def download_wms_grid (http : HttpResponse)
    (convert : String → Option String) (fs : FS)
    (wms_url layers : String) (full_bounds : ℚ × ℚ × ℚ × ℚ)
    (width height tile_px : ℕ) (srs output_dir pre : String)
    (save_metadata overwrite : Bool) : GridOutcome :=
  run_calls http convert wms_url layers srs tile_px save_metadata overwrite
    (grid_plan full_bounds width height tile_px output_dir pre).calls fs

-- ---- Helper lemmas ----

theorem pyInt_eq_floor_of_nonneg (q : ℚ) (h : 0 ≤ q) : pyInt q = ⌊q⌋ := by
  simp [pyInt, h]

theorem fsRead_write_self (fs : FS) (n : String) (c : FileContent) :
    fsRead (fsWrite fs n c) n = some c := by
  simp [fsRead, fsWrite, List.lookup]

theorem fsRead_write_ne (fs : FS) (n m : String) (c : FileContent)
    (h : m ≠ n) : fsRead (fsWrite fs n c) m = fsRead fs m := by
  have hb : (m == n) = false := by simp [h]
  simp [fsRead, fsWrite, List.lookup, hb]

theorem fsRead_remove_self (fs : FS) (n : String) :
    fsRead (fsRemove fs n) n = none := by
  induction fs with
  | nil => rfl
  | cons p t ih =>
    by_cases hp : p.1 = n
    · have hb : (p.1 != n) = false := by simp [hp]
      simpa [fsRemove, List.filter_cons, hb] using ih
    · have hb : (p.1 != n) = true := by simp [hp]
      have hn : (n == p.1) = false := by simp [Ne.symm hp]
      simpa [fsRemove, List.filter_cons, hb, fsRead, List.lookup, hn]
        using ih

theorem fsRead_remove_ne (fs : FS) (n m : String) (h : m ≠ n) :
    fsRead (fsRemove fs n) m = fsRead fs m := by
  induction fs with
  | nil => rfl
  | cons p t ih =>
    by_cases hp : p.1 = n
    · have hb : (p.1 != n) = false := by simp [hp]
      have hm : (m == p.1) = false := by subst hp; simp [h]
      simpa [fsRemove, List.filter_cons, hb, fsRead, List.lookup, hm]
        using ih
    · by_cases hm : m = p.1
      · have hb : (p.1 != n) = true := by simp [hp]
        have hmb : (m == p.1) = true := by simp [hm]
        simp [fsRemove, List.filter_cons, hb, fsRead, List.lookup, hmb]
      · have hb : (p.1 != n) = true := by simp [hp]
        have hmb : (m == p.1) = false := by simp [hm]
        simpa [fsRemove, List.filter_cons, hb, fsRead, List.lookup, hmb]
          using ih

/-- No separator character in the string means Python `split` returns the
one-element list holding the whole string. -/
theorem splitChar_eq_self (sep : Char) (cs : List Char)
    (h : ∀ c ∈ cs, c ≠ sep) : splitChar sep cs = [cs] := by
  induction cs with
  | nil => rfl
  | cons c rest ih =>
    have hc : c ≠ sep := h c (by simp)
    have := ih (fun x hx => h x (by simp [hx]))
    simp [splitChar, hc, this]

theorem pySplit_no_sep (s : String) (sep : Char)
    (h : ∀ c ∈ s.toList, c ≠ sep) : pySplit s sep = [s] := by
  unfold pySplit
  rw [splitChar_eq_self sep s.toList h]
  rfl

-- ---- Path lemmas for get_jpeg ----

theorem get_jpeg_bad_ext (http : HttpResponse)
    (convert : String → Option String) (fs : FS)
    (wms_url layers bbox : String) (width height : ℕ)
    (filename srs : String) (save_metadata overwrite : Bool)
    (hext : pyEndsWith filename ".jpg" = false) :
    get_jpeg http convert fs wms_url layers bbox width height filename srs
        save_metadata overwrite =
      ⟨.error (.badFileExtensionException "Filename must end with .jpg"),
        fs, 0, []⟩ := by
  simp [get_jpeg, hext]

theorem get_jpeg_skip (http : HttpResponse)
    (convert : String → Option String) (fs : FS)
    (wms_url layers bbox : String) (width height : ℕ)
    (filename srs : String) (save_metadata overwrite : Bool)
    (hext : pyEndsWith filename ".jpg" = true)
    (hskip : skipCheck fs save_metadata overwrite filename
        (pyReplace filename ".jpg" ".json") = true) :
    get_jpeg http convert fs wms_url layers bbox width height filename srs
        save_metadata overwrite = ⟨.ok none, fs, 0, []⟩ := by
  simp [get_jpeg, hext, hskip]

theorem get_jpeg_index_error (http : HttpResponse)
    (convert : String → Option String) (fs : FS)
    (wms_url layers bbox : String) (width height : ℕ)
    (filename srs : String) (save_metadata overwrite : Bool)
    (xmin ymin xmax ymax : ℚ)
    (hext : pyEndsWith filename ".jpg" = true)
    (hskip : skipCheck fs save_metadata overwrite filename
        (pyReplace filename ".jpg" ".json") = false)
    (hbbox : parseBbox bbox = some (xmin, ymin, xmax, ymax))
    (hsrs : (pySplit srs ':')[1]? = none) :
    get_jpeg http convert fs wms_url layers bbox width height filename srs
        save_metadata overwrite = ⟨.error .indexError, fs, 0, []⟩ := by
  simp [get_jpeg, hext, hskip, hbbox, hsrs]

theorem get_jpeg_http_fail (http : HttpResponse)
    (convert : String → Option String) (fs : FS)
    (wms_url layers bbox : String) (width height : ℕ)
    (filename srs : String) (save_metadata overwrite : Bool)
    (xmin ymin xmax ymax : ℚ) (wkid : String)
    (hext : pyEndsWith filename ".jpg" = true)
    (hskip : skipCheck fs save_metadata overwrite filename
        (pyReplace filename ".jpg" ".json") = false)
    (hbbox : parseBbox bbox = some (xmin, ymin, xmax, ymax))
    (hsrs : (pySplit srs ':')[1]? = some wkid)
    (hstatus : http.status_code ≠ 200) :
    get_jpeg http convert fs wms_url layers bbox width height filename srs
        save_metadata overwrite =
      ⟨.ok (some []), fs, 1,
        ["Failed: HTTP " ++ toString http.status_code]⟩ := by
  simp [get_jpeg, hext, hskip, hbbox, hsrs, hstatus]

theorem get_jpeg_conv_fail (http : HttpResponse)
    (convert : String → Option String) (fs : FS)
    (wms_url layers bbox : String) (width height : ℕ)
    (filename srs : String) (save_metadata overwrite : Bool)
    (xmin ymin xmax ymax : ℚ) (wkid : String)
    (hext : pyEndsWith filename ".jpg" = true)
    (hskip : skipCheck fs save_metadata overwrite filename
        (pyReplace filename ".jpg" ".json") = false)
    (hbbox : parseBbox bbox = some (xmin, ymin, xmax, ymax))
    (hsrs : (pySplit srs ':')[1]? = some wkid)
    (hstatus : http.status_code = 200)
    (hconv : convert http.content = none) :
    get_jpeg http convert fs wms_url layers bbox width height filename srs
        save_metadata overwrite =
      ⟨.ok (some [(filename,
          ⟨width, height, ⟨xmin, ymin, xmax, ymax, ⟨wkid⟩⟩⟩)]),
        fsRemove
          (if save_metadata then
            fsWrite
              (fsWrite (fsWrite fs (pyReplace filename ".jpg" "_.png")
                  (.bytes http.content))
                (pyReplace filename ".jpg" ".jgw")
                (.text (world_file_text
                  ⟨width, height, ⟨xmin, ymin, xmax, ymax, ⟨wkid⟩⟩⟩)))
              (pyReplace filename ".jpg" ".json")
              (.json (json_dump_metadata
                ⟨width, height, ⟨xmin, ymin, xmax, ymax, ⟨wkid⟩⟩⟩))
          else
            fsWrite
              (fsWrite fs (pyReplace filename ".jpg" "_.png")
                (.bytes http.content))
              (pyReplace filename ".jpg" ".jgw")
              (.text (world_file_text
                ⟨width, height, ⟨xmin, ymin, xmax, ymax, ⟨wkid⟩⟩⟩)))
          (pyReplace filename ".jpg" "_.png"),
        1, ["GDAL error"]⟩ := by
  simp [get_jpeg, hext, hskip, hbbox, hsrs, hstatus, hconv]

theorem get_jpeg_success (http : HttpResponse)
    (convert : String → Option String) (fs : FS)
    (wms_url layers bbox : String) (width height : ℕ)
    (filename srs : String) (save_metadata overwrite : Bool)
    (xmin ymin xmax ymax : ℚ) (wkid : String) (jpeg_bytes : String)
    (hext : pyEndsWith filename ".jpg" = true)
    (hskip : skipCheck fs save_metadata overwrite filename
        (pyReplace filename ".jpg" ".json") = false)
    (hbbox : parseBbox bbox = some (xmin, ymin, xmax, ymax))
    (hsrs : (pySplit srs ':')[1]? = some wkid)
    (hstatus : http.status_code = 200)
    (hconv : convert http.content = some jpeg_bytes) :
    get_jpeg http convert fs wms_url layers bbox width height filename srs
        save_metadata overwrite =
      ⟨.ok (some [(filename,
          ⟨width, height, ⟨xmin, ymin, xmax, ymax, ⟨wkid⟩⟩⟩)]),
        fsRemove
          (fsWrite
            (if save_metadata then
              fsWrite
                (fsWrite (fsWrite fs (pyReplace filename ".jpg" "_.png")
                    (.bytes http.content))
                  (pyReplace filename ".jpg" ".jgw")
                  (.text (world_file_text
                    ⟨width, height, ⟨xmin, ymin, xmax, ymax, ⟨wkid⟩⟩⟩)))
                (pyReplace filename ".jpg" ".json")
                (.json (json_dump_metadata
                  ⟨width, height, ⟨xmin, ymin, xmax, ymax, ⟨wkid⟩⟩⟩))
            else
              fsWrite
                (fsWrite fs (pyReplace filename ".jpg" "_.png")
                  (.bytes http.content))
                (pyReplace filename ".jpg" ".jgw")
                (.text (world_file_text
                  ⟨width, height, ⟨xmin, ymin, xmax, ymax, ⟨wkid⟩⟩⟩)))
            filename (.bytes jpeg_bytes))
          (pyReplace filename ".jpg" "_.png"),
        1, []⟩ := by
  simp [get_jpeg, hext, hskip, hbbox, hsrs, hstatus, hconv]

-- ---- Claim theorems ----

/-- C1: for every metadata record with extent xmin < xmax, ymin < ymax and
positive integer width and height, the world file produced by
`image_metadata_to_world_file` consists of exactly six lines —
(xmax−xmin)/width, 0.0, 0.0, −((ymax−ymin)/height), xmin, ymax — each on
its own line with a trailing newline (the encoding of `world_file_text`);
in particular its first line equals (xmax−xmin)/width and its fourth line
equals −((ymax−ymin)/height). -/
theorem world_file_six_lines (xmin ymin xmax ymax : ℚ) (width height : ℕ)
    (wkid : String) (hx : xmin < xmax) (hy : ymin < ymax)
    (hw : 0 < width) (hh : 0 < height) :
    image_metadata_to_world_file
        ⟨width, height, ⟨xmin, ymin, xmax, ymax, ⟨wkid⟩⟩⟩ =
      [(xmax - xmin) / (width : ℚ), 0, 0,
        -((ymax - ymin) / (height : ℚ)), xmin, ymax] ∧
    (image_metadata_to_world_file
        ⟨width, height, ⟨xmin, ymin, xmax, ymax, ⟨wkid⟩⟩⟩).length = 6 ∧
    (image_metadata_to_world_file
        ⟨width, height, ⟨xmin, ymin, xmax, ymax, ⟨wkid⟩⟩⟩)[0]? =
      some ((xmax - xmin) / (width : ℚ)) ∧
    (image_metadata_to_world_file
        ⟨width, height, ⟨xmin, ymin, xmax, ymax, ⟨wkid⟩⟩⟩)[3]? =
      some (-((ymax - ymin) / (height : ℚ))) :=
  ⟨rfl, rfl, rfl, rfl⟩

theorem world_file_six_lines_witness :
    ((0 : ℚ) < 250 ∧ (750 : ℚ) < 1000 ∧ 0 < 256 ∧ 0 < 256) ∧
      (image_metadata_to_world_file
          ⟨256, 256, ⟨0, 750, 250, 1000, ⟨"3857"⟩⟩⟩ =
        [((250 : ℚ) - 0) / ((256 : ℕ) : ℚ), 0, 0,
          -(((1000 : ℚ) - 750) / ((256 : ℕ) : ℚ)), 0, 1000] ∧
      (image_metadata_to_world_file
          ⟨256, 256, ⟨0, 750, 250, 1000, ⟨"3857"⟩⟩⟩).length = 6 ∧
      (image_metadata_to_world_file
          ⟨256, 256, ⟨0, 750, 250, 1000, ⟨"3857"⟩⟩⟩)[0]? =
        some (((250 : ℚ) - 0) / ((256 : ℕ) : ℚ)) ∧
      (image_metadata_to_world_file
          ⟨256, 256, ⟨0, 750, 250, 1000, ⟨"3857"⟩⟩⟩)[3]? =
        some (-(((1000 : ℚ) - 750) / ((256 : ℕ) : ℚ)))) :=
  ⟨⟨by norm_num, by norm_num, by norm_num, by norm_num⟩,
    world_file_six_lines 0 750 250 1000 256 256 "3857" (by norm_num)
      (by norm_num) (by norm_num) (by norm_num)⟩

/-- C6: a call to `get_jpeg` whose output filename does not end in `.jpg`
raises `BadFileExtensionException` immediately — zero HTTP calls, the
filesystem unchanged — aborting only this single fetch. -/
theorem bad_extension_aborts_fetch (http : HttpResponse)
    (convert : String → Option String) (fs : FS)
    (wms_url layers bbox : String) (width height : ℕ)
    (filename srs : String) (save_metadata overwrite : Bool)
    (hext : pyEndsWith filename ".jpg" = false) :
    get_jpeg http convert fs wms_url layers bbox width height filename srs
        save_metadata overwrite =
      ⟨.error (.badFileExtensionException "Filename must end with .jpg"),
        fs, 0, []⟩ :=
  get_jpeg_bad_ext http convert fs wms_url layers bbox width height
    filename srs save_metadata overwrite hext

theorem bad_extension_aborts_fetch_witness :
    pyEndsWith "tile.png" ".jpg" = false ∧
      get_jpeg ⟨200, "img"⟩ (fun s => some s) [] "http://wms" "ortho"
          "0,0,1,1" 256 256 "tile.png" "EPSG:3857" false true =
        ⟨.error (.badFileExtensionException "Filename must end with .jpg"),
          [], 0, []⟩ :=
  ⟨by decide,
    bad_extension_aborts_fetch ⟨200, "img"⟩ (fun s => some s) []
      "http://wms" "ortho" "0,0,1,1" 256 256 "tile.png" "EPSG:3857"
      false true (by decide)⟩

/-- C4: with `overwrite = false` and the target JPEG already present (and,
when `save_metadata` is true, the metadata JSON also present), `get_jpeg`
returns the skipped marker (Python `None`), performs zero HTTP calls and
leaves the filesystem untouched. -/
theorem skip_is_no_op (http : HttpResponse)
    (convert : String → Option String) (fs : FS)
    (wms_url layers bbox : String) (width height : ℕ)
    (filename srs : String) (save_metadata : Bool)
    (hext : pyEndsWith filename ".jpg" = true)
    (hjpeg : os_path_isfile fs filename = true)
    (hmd : save_metadata = true →
      os_path_isfile fs (pyReplace filename ".jpg" ".json") = true) :
    get_jpeg http convert fs wms_url layers bbox width height filename srs
        save_metadata false = ⟨.ok none, fs, 0, []⟩ := by
  apply get_jpeg_skip http convert fs wms_url layers bbox width height
    filename srs save_metadata false hext
  cases save_metadata with
  | false => simp [skipCheck, hjpeg]
  | true => simp [skipCheck, hjpeg, hmd rfl]

theorem skip_is_no_op_witness :
    (pyEndsWith "t.jpg" ".jpg" = true ∧
      os_path_isfile [("t.jpg", .bytes "x"), ("t.json", .json (.int 0))]
        "t.jpg" = true ∧
      os_path_isfile [("t.jpg", .bytes "x"), ("t.json", .json (.int 0))]
        (pyReplace "t.jpg" ".jpg" ".json") = true) ∧
    get_jpeg ⟨200, "img"⟩ (fun s => some s)
        [("t.jpg", .bytes "x"), ("t.json", .json (.int 0))] "http://wms"
        "ortho" "0,0,1,1" 256 256 "t.jpg" "EPSG:3857" true false =
      ⟨.ok none, [("t.jpg", .bytes "x"), ("t.json", .json (.int 0))],
        0, []⟩ :=
  ⟨⟨by decide, by decide, by decide⟩,
    skip_is_no_op ⟨200, "img"⟩ (fun s => some s)
      [("t.jpg", .bytes "x"), ("t.json", .json (.int 0))] "http://wms"
      "ortho" "0,0,1,1" 256 256 "t.jpg" "EPSG:3857" true (by decide)
      (by decide) (fun _ => by decide)⟩

/-- C5: when the HTTP GET returns a status other than 200, `get_jpeg` logs
the failure, returns the empty dict `{}`, makes exactly one HTTP call (no
retry) and writes no files. -/
theorem http_failure_writes_nothing (http : HttpResponse)
    (convert : String → Option String) (fs : FS)
    (wms_url layers bbox : String) (width height : ℕ)
    (filename srs : String) (save_metadata overwrite : Bool)
    (xmin ymin xmax ymax : ℚ) (wkid : String)
    (hext : pyEndsWith filename ".jpg" = true)
    (hskip : skipCheck fs save_metadata overwrite filename
        (pyReplace filename ".jpg" ".json") = false)
    (hbbox : parseBbox bbox = some (xmin, ymin, xmax, ymax))
    (hsrs : (pySplit srs ':')[1]? = some wkid)
    (hstatus : http.status_code ≠ 200) :
    get_jpeg http convert fs wms_url layers bbox width height filename srs
        save_metadata overwrite =
      ⟨.ok (some []), fs, 1,
        ["Failed: HTTP " ++ toString http.status_code]⟩ :=
  get_jpeg_http_fail http convert fs wms_url layers bbox width height
    filename srs save_metadata overwrite xmin ymin xmax ymax wkid hext
    hskip hbbox hsrs hstatus

theorem http_failure_writes_nothing_witness :
    (pyEndsWith "t.jpg" ".jpg" = true ∧
      skipCheck [] false true "t.jpg" (pyReplace "t.jpg" ".jpg" ".json")
        = false ∧
      parseBbox "0,0,1,1" = some (0, 0, 1, 1) ∧
      (pySplit "EPSG:3857" ':')[1]? = some "3857" ∧
      (404 : ℕ) ≠ 200) ∧
    get_jpeg ⟨404, "not found"⟩ (fun s => some s) [] "http://wms" "ortho"
        "0,0,1,1" 256 256 "t.jpg" "EPSG:3857" false true =
      ⟨.ok (some []), [], 1, ["Failed: HTTP " ++ toString (404 : ℕ)]⟩ :=
  ⟨⟨by decide, by decide, by decide, by decide, by decide⟩,
    http_failure_writes_nothing ⟨404, "not found"⟩ (fun s => some s) []
      "http://wms" "ortho" "0,0,1,1" 256 256 "t.jpg" "EPSG:3857" false
      true 0 0 1 1 "3857" (by decide) (by decide) (by decide) (by decide)
      (by decide)⟩

/-- C10: when the filename check passes, the call is not skipped and the
bbox parses, an `srs` argument containing no colon makes `get_jpeg` raise
an uncaught IndexError (from `srs.split(':')[1]`) while building the
metadata — before the HTTP request is issued and before any file is
written. -/
theorem missing_colon_index_error (http : HttpResponse)
    (convert : String → Option String) (fs : FS)
    (wms_url layers bbox : String) (width height : ℕ)
    (filename srs : String) (save_metadata overwrite : Bool)
    (xmin ymin xmax ymax : ℚ)
    (hext : pyEndsWith filename ".jpg" = true)
    (hskip : skipCheck fs save_metadata overwrite filename
        (pyReplace filename ".jpg" ".json") = false)
    (hbbox : parseBbox bbox = some (xmin, ymin, xmax, ymax))
    (hsrs : ∀ c ∈ srs.toList, c ≠ ':') :
    get_jpeg http convert fs wms_url layers bbox width height filename srs
        save_metadata overwrite = ⟨.error .indexError, fs, 0, []⟩ := by
  apply get_jpeg_index_error http convert fs wms_url layers bbox width
    height filename srs save_metadata overwrite xmin ymin xmax ymax hext
    hskip hbbox
  rw [pySplit_no_sep srs ':' hsrs]
  rfl

theorem missing_colon_index_error_witness :
    (pyEndsWith "t.jpg" ".jpg" = true ∧
      skipCheck [] false true "t.jpg" (pyReplace "t.jpg" ".jpg" ".json")
        = false ∧
      parseBbox "0,0,1,1" = some (0, 0, 1, 1) ∧
      ∀ c ∈ "EPSG3857".toList, c ≠ ':') ∧
    get_jpeg ⟨200, "img"⟩ (fun s => some s) [] "http://wms" "ortho"
        "0,0,1,1" 256 256 "t.jpg" "EPSG3857" false true =
      ⟨.error .indexError, [], 0, []⟩ :=
  ⟨⟨by decide, by decide, by decide, by decide⟩,
    missing_colon_index_error ⟨200, "img"⟩ (fun s => some s) []
      "http://wms" "ortho" "0,0,1,1" 256 256 "t.jpg" "EPSG3857" false
      true 0 0 1 1 (by decide) (by decide) (by decide) (by decide)⟩

/-- C2: for a valid full-area bounding box, positive total pixel sizes and
positive tile pixel size, `download_wms_grid` plans tile sizes
`tileSize• = tilePixelSize * extent / totalSize` and truncated (floored,
as the quotients are positive) cell counts
`cols = ⌊(xmax−xmin)/tileSizeX⌋`, `rows = ⌊(ymax−ymin)/tileSizeY⌋`; the
`(0,0,1000,1000)` / 1024×1024 / 256 example yields `cols = rows = 4` and
cell (0,0) has bounds `ymax = 1000`, `ymin = 750`, `xmin = 0`,
`xmax = 250`. -/
theorem grid_dimensions_floor :
    (∀ (xmin ymin xmax ymax : ℚ) (width height tile_px : ℕ)
      (output_dir pre : String),
      xmin < xmax → ymin < ymax → 0 < width → 0 < height → 0 < tile_px →
      (grid_plan (xmin, ymin, xmax, ymax) width height tile_px output_dir
          pre).tile_size_x = (tile_px : ℚ) * ((xmax - xmin) / (width : ℚ)) ∧
      (grid_plan (xmin, ymin, xmax, ymax) width height tile_px output_dir
          pre).tile_size_y = (tile_px : ℚ) * ((ymax - ymin) / (height : ℚ)) ∧
      (grid_plan (xmin, ymin, xmax, ymax) width height tile_px output_dir
          pre).cols =
        ⌊(xmax - xmin) / ((tile_px : ℚ) * ((xmax - xmin) / (width : ℚ)))⌋ ∧
      (grid_plan (xmin, ymin, xmax, ymax) width height tile_px output_dir
          pre).rows =
        ⌊(ymax - ymin) / ((tile_px : ℚ) * ((ymax - ymin) / (height : ℚ)))⌋) ∧
    ((grid_plan (0, 0, 1000, 1000) 1024 1024 256 "tiles_output"
        "tile").tile_size_x = 250 ∧
      (grid_plan (0, 0, 1000, 1000) 1024 1024 256 "tiles_output"
        "tile").tile_size_y = 250 ∧
      (grid_plan (0, 0, 1000, 1000) 1024 1024 256 "tiles_output"
        "tile").cols = 4 ∧
      (grid_plan (0, 0, 1000, 1000) 1024 1024 256 "tiles_output"
        "tile").rows = 4 ∧
      (grid_cell (0, 0, 1000, 1000)
        (grid_plan (0, 0, 1000, 1000) 1024 1024 256 "tiles_output"
          "tile").tile_size_x
        (grid_plan (0, 0, 1000, 1000) 1024 1024 256 "tiles_output"
          "tile").tile_size_y "tiles_output" "tile" 0 0).tile_ymax
        = 1000 ∧
      (grid_cell (0, 0, 1000, 1000)
        (grid_plan (0, 0, 1000, 1000) 1024 1024 256 "tiles_output"
          "tile").tile_size_x
        (grid_plan (0, 0, 1000, 1000) 1024 1024 256 "tiles_output"
          "tile").tile_size_y "tiles_output" "tile" 0 0).tile_ymin
        = 750 ∧
      (grid_cell (0, 0, 1000, 1000)
        (grid_plan (0, 0, 1000, 1000) 1024 1024 256 "tiles_output"
          "tile").tile_size_x
        (grid_plan (0, 0, 1000, 1000) 1024 1024 256 "tiles_output"
          "tile").tile_size_y "tiles_output" "tile" 0 0).tile_xmin
        = 0 ∧
      (grid_cell (0, 0, 1000, 1000)
        (grid_plan (0, 0, 1000, 1000) 1024 1024 256 "tiles_output"
          "tile").tile_size_x
        (grid_plan (0, 0, 1000, 1000) 1024 1024 256 "tiles_output"
          "tile").tile_size_y "tiles_output" "tile" 0 0).tile_xmax
        = 250) := by
  constructor
  · intro xmin ymin xmax ymax width height tile_px output_dir pre hx hy
      hw hh ht
    have hxm : (0 : ℚ) < xmax - xmin := by linarith
    have hym : (0 : ℚ) < ymax - ymin := by linarith
    have hwq : (0 : ℚ) < (width : ℚ) := by exact_mod_cast hw
    have hhq : (0 : ℚ) < (height : ℚ) := by exact_mod_cast hh
    have htq : (0 : ℚ) < (tile_px : ℚ) := by exact_mod_cast ht
    refine ⟨rfl, rfl, ?_, ?_⟩
    · exact pyInt_eq_floor_of_nonneg _
        (le_of_lt (div_pos hxm (mul_pos htq (div_pos hxm hwq))))
    · exact pyInt_eq_floor_of_nonneg _
        (le_of_lt (div_pos hym (mul_pos htq (div_pos hym hhq))))
  · refine ⟨?_, ?_, ?_, ?_, ?_, ?_, ?_, ?_⟩ <;>
      norm_num [grid_plan, grid_cell, pyInt]

theorem grid_dimensions_floor_witness :
    ((0 : ℚ) < 1000 ∧ (0 : ℚ) < 1000 ∧ 0 < 1024 ∧ 0 < 1024 ∧ 0 < 256) ∧
    ((grid_plan (0, 0, 1000, 1000) 1024 1024 256 "tiles_output"
        "tile").tile_size_x
        = ((256 : ℕ) : ℚ) * (((1000 : ℚ) - 0) / ((1024 : ℕ) : ℚ)) ∧
      (grid_plan (0, 0, 1000, 1000) 1024 1024 256 "tiles_output"
        "tile").tile_size_y
        = ((256 : ℕ) : ℚ) * (((1000 : ℚ) - 0) / ((1024 : ℕ) : ℚ)) ∧
      (grid_plan (0, 0, 1000, 1000) 1024 1024 256 "tiles_output"
        "tile").cols =
        ⌊((1000 : ℚ) - 0) /
          (((256 : ℕ) : ℚ) * (((1000 : ℚ) - 0) / ((1024 : ℕ) : ℚ)))⌋ ∧
      (grid_plan (0, 0, 1000, 1000) 1024 1024 256 "tiles_output"
        "tile").rows =
        ⌊((1000 : ℚ) - 0) /
          (((256 : ℕ) : ℚ) * (((1000 : ℚ) - 0) / ((1024 : ℕ) : ℚ)))⌋) :=
  ⟨⟨by norm_num, by norm_num, by norm_num, by norm_num, by norm_num⟩,
    grid_dimensions_floor.1 0 0 1000 1000 1024 1024 256 "tiles_output"
      "tile" (by norm_num) (by norm_num) (by norm_num) (by norm_num)
      (by norm_num)⟩

/-- Length of a flatMap whose pieces all have length `C`. -/
theorem flatMap_const_length {α β : Type} (g : α → List β) (C : ℕ) :
    ∀ l : List α, (∀ a ∈ l, (g a).length = C) →
      (l.flatMap g).length = l.length * C := by
  intro l
  induction l with
  | nil => intro _h; simp
  | cons a t ih =>
    intro h
    have ha := h a (by simp)
    have ht := ih (fun x hx => h x (by simp [hx]))
    calc ((a :: t).flatMap g).length
        = (g a).length + (t.flatMap g).length := by
          simp [List.flatMap_cons]
      _ = C + t.length * C := by rw [ha, ht]
      _ = (t.length + 1) * C := by ring
      _ = (a :: t).length * C := by simp [Nat.add_comm]

/-- Element `r * C + c` of a flatMap whose pieces all have length `C`:
row-major indexing. -/
theorem flatMap_const_getElem {α β : Type} (g : α → List β) (C : ℕ) :
    ∀ (l : List α) (r c : ℕ), (∀ a ∈ l, (g a).length = C) → c < C →
      (l.flatMap g)[r * C + c]? = l[r]?.bind (fun a => (g a)[c]?) := by
  intro l
  induction l with
  | nil => intro r c _h _hc; simp
  | cons a t ih =>
    intro r c h hc
    have ha := h a (by simp)
    cases r with
    | zero =>
      rw [List.flatMap_cons, List.getElem?_append]
      simp only [Nat.zero_mul, Nat.zero_add]
      have hlt : c < (g a).length := by rw [ha]; exact hc
      simp [hlt]
    | succ r =>
      have hidx : (r + 1) * C + c = (g a).length + (r * C + c) := by
        rw [ha, Nat.succ_mul]; ring
      rw [List.flatMap_cons, hidx,
        List.getElem?_append_right (Nat.le_add_right _ _)]
      simp only [Nat.add_sub_cancel_left]
      simpa using ih r c (fun x hx => h x (by simp [hx])) hc

/-- The planned call at row-major position `row * cols + col` is the grid
cell `(row, col)`. -/
theorem grid_plan_calls_getElem (fb : ℚ × ℚ × ℚ × ℚ)
    (width height tile_px : ℕ) (output_dir pre : String) (row col : ℕ)
    (hrow : row <
      (grid_plan fb width height tile_px output_dir pre).rows.toNat)
    (hcol : col <
      (grid_plan fb width height tile_px output_dir pre).cols.toNat) :
    (grid_plan fb width height tile_px output_dir pre).calls[row *
        (grid_plan fb width height tile_px output_dir pre).cols.toNat
        + col]? =
      some (grid_cell fb
        (grid_plan fb width height tile_px output_dir pre).tile_size_x
        (grid_plan fb width height tile_px output_dir pre).tile_size_y
        output_dir pre row col) := by
  obtain ⟨xmin, ymin, xmax, ymax⟩ := fb
  rw [show (grid_plan (xmin, ymin, xmax, ymax) width height tile_px
      output_dir pre).calls =
    (List.range (grid_plan (xmin, ymin, xmax, ymax) width height tile_px
        output_dir pre).rows.toNat).flatMap (fun row =>
      (List.range (grid_plan (xmin, ymin, xmax, ymax) width height
          tile_px output_dir pre).cols.toNat).map (fun col =>
        grid_cell (xmin, ymin, xmax, ymax)
          (grid_plan (xmin, ymin, xmax, ymax) width height tile_px
            output_dir pre).tile_size_x
          (grid_plan (xmin, ymin, xmax, ymax) width height tile_px
            output_dir pre).tile_size_y output_dir pre row col))
    from rfl]
  rw [flatMap_const_getElem _ _ _ row col (fun a _ => by simp) hcol]
  simp [List.getElem?_range, hrow, hcol]

/-- C3: the grid cells are dispatched row-major (rows as the outer loop,
columns inner): the call at position `row * cols + col` of the dispatch
list is exactly cell `(row, col)`, with bounds `tile_xmin = xmin +
col*tileSizeX`, `tile_xmax = tile_xmin + tileSizeX`, `tile_ymax = ymax −
row*tileSizeY`, `tile_ymin = tile_ymax − tileSizeY` (row 0 at the north
edge) and a filename derived deterministically from
`(prefix, row, col)`; the list has exactly `rows * cols` entries. -/
theorem grid_dispatch_row_major (xmin ymin xmax ymax : ℚ)
    (width height tile_px : ℕ) (output_dir pre : String) (row col : ℕ)
    (hrow : row < (grid_plan (xmin, ymin, xmax, ymax) width height
      tile_px output_dir pre).rows.toNat)
    (hcol : col < (grid_plan (xmin, ymin, xmax, ymax) width height
      tile_px output_dir pre).cols.toNat) :
    (grid_plan (xmin, ymin, xmax, ymax) width height tile_px output_dir
        pre).calls.length =
      (grid_plan (xmin, ymin, xmax, ymax) width height tile_px output_dir
        pre).rows.toNat *
      (grid_plan (xmin, ymin, xmax, ymax) width height tile_px output_dir
        pre).cols.toNat ∧
    (grid_plan (xmin, ymin, xmax, ymax) width height tile_px output_dir
        pre).calls[row *
        (grid_plan (xmin, ymin, xmax, ymax) width height tile_px
          output_dir pre).cols.toNat + col]? =
      some
        { row := row, col := col,
          tile_xmin := xmin + (col : ℚ) *
            (grid_plan (xmin, ymin, xmax, ymax) width height tile_px
              output_dir pre).tile_size_x,
          tile_ymin := ymax - (row : ℚ) *
            (grid_plan (xmin, ymin, xmax, ymax) width height tile_px
              output_dir pre).tile_size_y -
            (grid_plan (xmin, ymin, xmax, ymax) width height tile_px
              output_dir pre).tile_size_y,
          tile_xmax := xmin + (col : ℚ) *
            (grid_plan (xmin, ymin, xmax, ymax) width height tile_px
              output_dir pre).tile_size_x +
            (grid_plan (xmin, ymin, xmax, ymax) width height tile_px
              output_dir pre).tile_size_x,
          tile_ymax := ymax - (row : ℚ) *
            (grid_plan (xmin, ymin, xmax, ymax) width height tile_px
              output_dir pre).tile_size_y,
          bbox := bounds_to_bbox
            (xmin + (col : ℚ) *
              (grid_plan (xmin, ymin, xmax, ymax) width height tile_px
                output_dir pre).tile_size_x,
             ymax - (row : ℚ) *
              (grid_plan (xmin, ymin, xmax, ymax) width height tile_px
                output_dir pre).tile_size_y -
              (grid_plan (xmin, ymin, xmax, ymax) width height tile_px
                output_dir pre).tile_size_y,
             xmin + (col : ℚ) *
              (grid_plan (xmin, ymin, xmax, ymax) width height tile_px
                output_dir pre).tile_size_x +
              (grid_plan (xmin, ymin, xmax, ymax) width height tile_px
                output_dir pre).tile_size_x,
             ymax - (row : ℚ) *
              (grid_plan (xmin, ymin, xmax, ymax) width height tile_px
                output_dir pre).tile_size_y),
          filename := os_path_join output_dir
            (pre ++ "_" ++ toString row ++ "_" ++ toString col
              ++ ".jpg") } := by
  constructor
  · rw [show (grid_plan (xmin, ymin, xmax, ymax) width height tile_px
        output_dir pre).calls =
      (List.range (grid_plan (xmin, ymin, xmax, ymax) width height
          tile_px output_dir pre).rows.toNat).flatMap (fun row =>
        (List.range (grid_plan (xmin, ymin, xmax, ymax) width height
            tile_px output_dir pre).cols.toNat).map (fun col =>
          grid_cell (xmin, ymin, xmax, ymax)
            (grid_plan (xmin, ymin, xmax, ymax) width height tile_px
              output_dir pre).tile_size_x
            (grid_plan (xmin, ymin, xmax, ymax) width height tile_px
              output_dir pre).tile_size_y output_dir pre row col))
      from rfl]
    rw [flatMap_const_length _
      (grid_plan (xmin, ymin, xmax, ymax) width height tile_px output_dir
        pre).cols.toNat _ (fun a _ => by simp)]
    simp
  · rw [grid_plan_calls_getElem (xmin, ymin, xmax, ymax) width height
      tile_px output_dir pre row col hrow hcol]
    rfl

theorem grid_dispatch_row_major_witness :
    (1 < (grid_plan (0, 0, 1000, 1000) 1024 1024 256 "tiles_output"
        "tile").rows.toNat ∧
      2 < (grid_plan (0, 0, 1000, 1000) 1024 1024 256 "tiles_output"
        "tile").cols.toNat) ∧
    ((grid_plan (0, 0, 1000, 1000) 1024 1024 256 "tiles_output"
        "tile").calls.length =
      (grid_plan (0, 0, 1000, 1000) 1024 1024 256 "tiles_output"
        "tile").rows.toNat *
      (grid_plan (0, 0, 1000, 1000) 1024 1024 256 "tiles_output"
        "tile").cols.toNat ∧
    (grid_plan (0, 0, 1000, 1000) 1024 1024 256 "tiles_output"
        "tile").calls[1 * (grid_plan (0, 0, 1000, 1000) 1024 1024 256
        "tiles_output" "tile").cols.toNat + 2]? =
      some (grid_cell (0, 0, 1000, 1000)
        (grid_plan (0, 0, 1000, 1000) 1024 1024 256 "tiles_output"
          "tile").tile_size_x
        (grid_plan (0, 0, 1000, 1000) 1024 1024 256 "tiles_output"
          "tile").tile_size_y "tiles_output" "tile" 1 2)) := by
  have h1 : 1 < (grid_plan (0, 0, 1000, 1000) 1024 1024 256
      "tiles_output" "tile").rows.toNat := by
    norm_num [grid_plan, pyInt]
  have h2 : 2 < (grid_plan (0, 0, 1000, 1000) 1024 1024 256
      "tiles_output" "tile").cols.toNat := by
    norm_num [grid_plan, pyInt]
  exact ⟨⟨h1, h2⟩, grid_dispatch_row_major 0 0 1000 1000 1024 1024 256
    "tiles_output" "tile" 1 2 h1 h2⟩

/-- C8: on HTTP 200 with a failing format conversion, the exception is
caught (logged as the warning), `get_jpeg` still returns the result dict
built from the metadata instead of aborting, and the disk is left
inconsistent: the world file (and, with `save_metadata`, the metadata
JSON) exist while the final JPEG was not written by this call (absent or
stale); the intermediate raw PNG is gone (`os.remove` sits outside the
`try`), and on full success the intermediate raw image is deleted as
well. -/
theorem conversion_failure_keeps_partial_artifacts (http : HttpResponse)
    (convert : String → Option String) (fs : FS)
    (wms_url layers bbox : String) (width height : ℕ)
    (filename srs : String) (save_metadata overwrite : Bool)
    (xmin ymin xmax ymax : ℚ) (wkid : String)
    (hext : pyEndsWith filename ".jpg" = true)
    (hskip : skipCheck fs save_metadata overwrite filename
        (pyReplace filename ".jpg" ".json") = false)
    (hbbox : parseBbox bbox = some (xmin, ymin, xmax, ymax))
    (hsrs : (pySplit srs ':')[1]? = some wkid)
    (hstatus : http.status_code = 200)
    (hconv : convert http.content = none)
    (hjgw_png : pyReplace filename ".jpg" ".jgw"
      ≠ pyReplace filename ".jpg" "_.png")
    (hmd_png : pyReplace filename ".jpg" ".json"
      ≠ pyReplace filename ".jpg" "_.png")
    (hjpg_png : filename ≠ pyReplace filename ".jpg" "_.png")
    (hjpg_jgw : filename ≠ pyReplace filename ".jpg" ".jgw")
    (hjpg_md : filename ≠ pyReplace filename ".jpg" ".json")
    (hjgw_md : pyReplace filename ".jpg" ".jgw"
      ≠ pyReplace filename ".jpg" ".json") :
    (get_jpeg http convert fs wms_url layers bbox width height filename
        srs save_metadata overwrite).result =
      .ok (some [(filename,
        ⟨width, height, ⟨xmin, ymin, xmax, ymax, ⟨wkid⟩⟩⟩)]) ∧
    (get_jpeg http convert fs wms_url layers bbox width height filename
        srs save_metadata overwrite).logs = ["GDAL error"] ∧
    (get_jpeg http convert fs wms_url layers bbox width height filename
        srs save_metadata overwrite).httpCalls = 1 ∧
    fsRead (get_jpeg http convert fs wms_url layers bbox width height
        filename srs save_metadata overwrite).fs
        (pyReplace filename ".jpg" ".jgw") =
      some (.text (world_file_text
        ⟨width, height, ⟨xmin, ymin, xmax, ymax, ⟨wkid⟩⟩⟩)) ∧
    (save_metadata = true →
      fsRead (get_jpeg http convert fs wms_url layers bbox width height
          filename srs save_metadata overwrite).fs
          (pyReplace filename ".jpg" ".json") =
        some (.json (json_dump_metadata
          ⟨width, height, ⟨xmin, ymin, xmax, ymax, ⟨wkid⟩⟩⟩))) ∧
    fsRead (get_jpeg http convert fs wms_url layers bbox width height
        filename srs save_metadata overwrite).fs filename =
      fsRead fs filename ∧
    fsRead (get_jpeg http convert fs wms_url layers bbox width height
        filename srs save_metadata overwrite).fs
        (pyReplace filename ".jpg" "_.png") = none ∧
    (∀ (convert2 : String → Option String) (jb : String),
      convert2 http.content = some jb →
      fsRead (get_jpeg http convert2 fs wms_url layers bbox width height
          filename srs save_metadata overwrite).fs
          (pyReplace filename ".jpg" "_.png") = none ∧
      fsRead (get_jpeg http convert2 fs wms_url layers bbox width height
          filename srs save_metadata overwrite).fs filename =
        some (.bytes jb)) := by
  rw [get_jpeg_conv_fail http convert fs wms_url layers bbox width height
    filename srs save_metadata overwrite xmin ymin xmax ymax wkid hext
    hskip hbbox hsrs hstatus hconv]
  refine ⟨rfl, rfl, rfl, ?_, ?_, ?_, ?_, ?_⟩
  · cases save_metadata <;>
      simp [fsRead_remove_ne, fsRead_write_ne, fsRead_write_self,
        hjgw_png, hjgw_md]
  · cases save_metadata <;>
      simp [fsRead_remove_ne, fsRead_write_ne, fsRead_write_self,
        hmd_png]
  · cases save_metadata <;>
      simp [fsRead_remove_ne, fsRead_write_ne, hjpg_png, hjpg_jgw,
        hjpg_md]
  · exact fsRead_remove_self _ _
  · intro convert2 jb hc2
    rw [get_jpeg_success http convert2 fs wms_url layers bbox width
      height filename srs save_metadata overwrite xmin ymin xmax ymax
      wkid jb hext hskip hbbox hsrs hstatus hc2]
    exact ⟨fsRead_remove_self _ _, by
      simp [fsRead_remove_ne, fsRead_write_self, hjpg_png]⟩

theorem conversion_failure_keeps_partial_artifacts_witness :
    (pyEndsWith "t.jpg" ".jpg" = true ∧
      skipCheck [] true true "t.jpg" (pyReplace "t.jpg" ".jpg" ".json")
        = false ∧
      parseBbox "0,0,1,1" = some (0, 0, 1, 1) ∧
      (pySplit "EPSG:3857" ':')[1]? = some "3857" ∧
      (200 : ℕ) = 200 ∧
      (fun (_ : String) => (none : Option String)) "img" = none ∧
      pyReplace "t.jpg" ".jpg" ".jgw" ≠ pyReplace "t.jpg" ".jpg" "_.png" ∧
      pyReplace "t.jpg" ".jpg" ".json" ≠ pyReplace "t.jpg" ".jpg" "_.png" ∧
      "t.jpg" ≠ pyReplace "t.jpg" ".jpg" "_.png" ∧
      "t.jpg" ≠ pyReplace "t.jpg" ".jpg" ".jgw" ∧
      "t.jpg" ≠ pyReplace "t.jpg" ".jpg" ".json" ∧
      pyReplace "t.jpg" ".jpg" ".jgw" ≠ pyReplace "t.jpg" ".jpg" ".json") ∧
    (get_jpeg ⟨200, "img"⟩ (fun _ => none) [] "http://wms" "ortho"
        "0,0,1,1" 256 256 "t.jpg" "EPSG:3857" true true).result =
      .ok (some [("t.jpg", ⟨256, 256, ⟨0, 0, 1, 1, ⟨"3857"⟩⟩⟩)]) ∧
    (get_jpeg ⟨200, "img"⟩ (fun _ => none) [] "http://wms" "ortho"
        "0,0,1,1" 256 256 "t.jpg" "EPSG:3857" true true).logs =
      ["GDAL error"] ∧
    fsRead (get_jpeg ⟨200, "img"⟩ (fun _ => none) [] "http://wms" "ortho"
        "0,0,1,1" 256 256 "t.jpg" "EPSG:3857" true true).fs
        (pyReplace "t.jpg" ".jpg" "_.png") = none := by
  have h := conversion_failure_keeps_partial_artifacts ⟨200, "img"⟩
    (fun _ => none) [] "http://wms" "ortho" "0,0,1,1" 256 256 "t.jpg"
    "EPSG:3857" true true 0 0 1 1 "3857" (by decide) (by decide)
    (by decide) (by decide) rfl rfl (by decide) (by decide) (by decide)
    (by decide) (by decide) (by decide)
  exact ⟨⟨by decide, by decide, by decide, by decide, rfl, rfl,
      by decide, by decide, by decide, by decide, by decide, by decide⟩,
    h.1, h.2.1, h.2.2.2.2.2.2.1⟩

/-- C9: on a successful fetch with `save_metadata` enabled, the persisted
metadata JSON has the documented shape — integer width/height, float
extent coordinates and a string `latestWkid` equal to the part of the SRS
identifier selected by `srs.split(':')[1]` — and reloading it reproduces
exactly the extent and pixel dimensions used to derive the world file of
the same tile. -/
theorem metadata_json_roundtrip (http : HttpResponse)
    (convert : String → Option String) (fs : FS)
    (wms_url layers bbox : String) (width height : ℕ)
    (filename srs : String) (overwrite : Bool)
    (xmin ymin xmax ymax : ℚ) (wkid jb : String)
    (hext : pyEndsWith filename ".jpg" = true)
    (hskip : skipCheck fs true overwrite filename
        (pyReplace filename ".jpg" ".json") = false)
    (hbbox : parseBbox bbox = some (xmin, ymin, xmax, ymax))
    (hsrs : (pySplit srs ':')[1]? = some wkid)
    (hstatus : http.status_code = 200)
    (hconv : convert http.content = some jb)
    (hmd_png : pyReplace filename ".jpg" ".json"
      ≠ pyReplace filename ".jpg" "_.png")
    (hmd_jpg : pyReplace filename ".jpg" ".json" ≠ filename)
    (hjgw_png : pyReplace filename ".jpg" ".jgw"
      ≠ pyReplace filename ".jpg" "_.png")
    (hjgw_jpg : pyReplace filename ".jpg" ".jgw" ≠ filename)
    (hjgw_md : pyReplace filename ".jpg" ".jgw"
      ≠ pyReplace filename ".jpg" ".json") :
    fsRead (get_jpeg http convert fs wms_url layers bbox width height
        filename srs true overwrite).fs
        (pyReplace filename ".jpg" ".json") =
      some (.json (json_dump_metadata
        ⟨width, height, ⟨xmin, ymin, xmax, ymax, ⟨wkid⟩⟩⟩)) ∧
    json_dump_metadata ⟨width, height, ⟨xmin, ymin, xmax, ymax, ⟨wkid⟩⟩⟩ =
      PyJson.obj [("width", .int width), ("height", .int height),
        ("extent", .obj
          [("xmin", .num xmin), ("ymin", .num ymin),
           ("xmax", .num xmax), ("ymax", .num ymax),
           ("spatialReference", .obj [("latestWkid", .str wkid)])])] ∧
    json_load_metadata (json_dump_metadata
        ⟨width, height, ⟨xmin, ymin, xmax, ymax, ⟨wkid⟩⟩⟩) =
      some ⟨width, height, ⟨xmin, ymin, xmax, ymax, ⟨wkid⟩⟩⟩ ∧
    fsRead (get_jpeg http convert fs wms_url layers bbox width height
        filename srs true overwrite).fs
        (pyReplace filename ".jpg" ".jgw") =
      some (.text (world_file_text
        ⟨width, height, ⟨xmin, ymin, xmax, ymax, ⟨wkid⟩⟩⟩)) ∧
    (json_load_metadata (json_dump_metadata
        ⟨width, height, ⟨xmin, ymin, xmax, ymax, ⟨wkid⟩⟩⟩)).map
        world_file_text =
      some (world_file_text
        ⟨width, height, ⟨xmin, ymin, xmax, ymax, ⟨wkid⟩⟩⟩) := by
  rw [get_jpeg_success http convert fs wms_url layers bbox width height
    filename srs true overwrite xmin ymin xmax ymax wkid jb hext hskip
    hbbox hsrs hstatus hconv]
  refine ⟨?_, rfl, rfl, ?_, rfl⟩
  · simp [fsRead_remove_ne, fsRead_write_ne, fsRead_write_self, hmd_png,
      hmd_jpg]
  · simp [fsRead_remove_ne, fsRead_write_ne, fsRead_write_self, hjgw_png,
      hjgw_jpg, hjgw_md]

theorem metadata_json_roundtrip_witness :
    (pyEndsWith "t.jpg" ".jpg" = true ∧
      skipCheck [] true true "t.jpg" (pyReplace "t.jpg" ".jpg" ".json")
        = false ∧
      parseBbox "0,0,1,1" = some (0, 0, 1, 1) ∧
      (pySplit "EPSG:3857" ':')[1]? = some "3857" ∧
      (200 : ℕ) = 200 ∧
      (fun (_ : String) => some "jpegbytes") "img" = some "jpegbytes" ∧
      pyReplace "t.jpg" ".jpg" ".json" ≠ pyReplace "t.jpg" ".jpg" "_.png" ∧
      pyReplace "t.jpg" ".jpg" ".json" ≠ "t.jpg" ∧
      pyReplace "t.jpg" ".jpg" ".jgw" ≠ pyReplace "t.jpg" ".jpg" "_.png" ∧
      pyReplace "t.jpg" ".jpg" ".jgw" ≠ "t.jpg" ∧
      pyReplace "t.jpg" ".jpg" ".jgw" ≠ pyReplace "t.jpg" ".jpg" ".json") ∧
    fsRead (get_jpeg ⟨200, "img"⟩ (fun _ => some "jpegbytes") []
        "http://wms" "ortho" "0,0,1,1" 256 256 "t.jpg" "EPSG:3857" true
        true).fs (pyReplace "t.jpg" ".jpg" ".json") =
      some (.json (json_dump_metadata ⟨256, 256, ⟨0, 0, 1, 1, ⟨"3857"⟩⟩⟩)) ∧
    json_load_metadata (json_dump_metadata
        ⟨256, 256, ⟨0, 0, 1, 1, ⟨"3857"⟩⟩⟩) =
      some ⟨256, 256, ⟨0, 0, 1, 1, ⟨"3857"⟩⟩⟩ := by
  have h := metadata_json_roundtrip ⟨200, "img"⟩ (fun _ => some "jpegbytes")
    [] "http://wms" "ortho" "0,0,1,1" 256 256 "t.jpg" "EPSG:3857" true
    0 0 1 1 "3857" "jpegbytes" (by decide) (by decide) (by decide)
    (by decide) rfl rfl (by decide) (by decide) (by decide) (by decide)
    (by decide)
  exact ⟨⟨by decide, by decide, by decide, by decide, rfl, rfl,
      by decide, by decide, by decide, by decide, by decide⟩,
    h.1, h.2.2.1⟩

/-- Under the normal-operation preconditions (a `.jpg` filename, a
parseable bbox, an SRS with a colon), `get_jpeg` never raises: every path
returns a value. -/
theorem get_jpeg_result_ok (http : HttpResponse)
    (convert : String → Option String) (fs : FS)
    (wms_url layers bbox : String) (width height : ℕ)
    (filename srs : String) (save_metadata overwrite : Bool)
    (wkid : String)
    (hext : pyEndsWith filename ".jpg" = true)
    (hbbox : (parseBbox bbox).isSome = true)
    (hsrs : (pySplit srs ':')[1]? = some wkid) :
    ∃ v, (get_jpeg http convert fs wms_url layers bbox width height
      filename srs save_metadata overwrite).result = .ok v := by
  obtain ⟨⟨xmin, ymin, xmax, ymax⟩, hb⟩ :=
    Option.isSome_iff_exists.mp hbbox
  by_cases hskip : skipCheck fs save_metadata overwrite filename
      (pyReplace filename ".jpg" ".json") = true
  · exact ⟨none, by
      rw [get_jpeg_skip http convert fs wms_url layers bbox width height
        filename srs save_metadata overwrite hext hskip]⟩
  · have hskip' : skipCheck fs save_metadata overwrite filename
        (pyReplace filename ".jpg" ".json") = false := by
      simpa using hskip
    by_cases hstatus : http.status_code = 200
    · cases hconv : convert http.content with
      | none =>
        exact ⟨some [(filename,
            ⟨width, height, ⟨xmin, ymin, xmax, ymax, ⟨wkid⟩⟩⟩)], by
          rw [get_jpeg_conv_fail http convert fs wms_url layers bbox
            width height filename srs save_metadata overwrite xmin ymin
            xmax ymax wkid hext hskip' hb hsrs hstatus hconv]⟩
      | some jb =>
        exact ⟨some [(filename,
            ⟨width, height, ⟨xmin, ymin, xmax, ymax, ⟨wkid⟩⟩⟩)], by
          rw [get_jpeg_success http convert fs wms_url layers bbox width
            height filename srs save_metadata overwrite xmin ymin xmax
            ymax wkid jb hext hskip' hb hsrs hstatus hconv]⟩
    · exact ⟨some [], by
        rw [get_jpeg_http_fail http convert fs wms_url layers bbox width
          height filename srs save_metadata overwrite xmin ymin xmax ymax
          wkid hext hskip' hb hsrs hstatus]⟩

/-- When no cell raises, the dispatch loop visits every planned cell, for
any HTTP response and conversion oracle. -/
theorem run_calls_total (http : HttpResponse)
    (convert : String → Option String) (wms_url layers srs : String)
    (tile_px : ℕ) (save_metadata overwrite : Bool) (wkid : String)
    (hsrs : (pySplit srs ':')[1]? = some wkid) :
    ∀ (calls : List GridCall) (fs : FS),
      (∀ c ∈ calls, pyEndsWith c.filename ".jpg" = true ∧
        (parseBbox c.bbox).isSome = true) →
      (run_calls http convert wms_url layers srs tile_px save_metadata
        overwrite calls fs).result = .ok () ∧
      (run_calls http convert wms_url layers srs tile_px save_metadata
        overwrite calls fs).dispatched = calls.length := by
  intro calls
  induction calls with
  | nil => intro fs _h; exact ⟨rfl, rfl⟩
  | cons c rest ih =>
    intro fs h
    obtain ⟨hext, hbbox⟩ := h c (by simp)
    obtain ⟨v, hv⟩ := get_jpeg_result_ok http convert fs wms_url layers
      c.bbox tile_px tile_px c.filename srs save_metadata overwrite wkid
      hext hbbox hsrs
    have hrest := ih ((get_jpeg http convert fs wms_url layers c.bbox
        tile_px tile_px c.filename srs save_metadata overwrite).fs)
      (fun x hx => h x (by simp [hx]))
    simp only [run_calls]
    rw [hv]
    simp only [List.length_cons]
    exact ⟨hrest.1, by rw [hrest.2]; omega⟩

/-- The concrete 2×2 plan over `(0,0,2,2)` with a 2×2-pixel total image
and 1-pixel tiles, evaluated to its literal cells. -/
theorem grid_2x2_calls :
    (grid_plan (0, 0, 2, 2) 2 2 1 "tiles_output" "tile").calls =
    [⟨0, 0, 0, 1, 1, 2, "0,1,1,2", "tiles_output/tile_0_0.jpg"⟩,
     ⟨0, 1, 1, 1, 2, 2, "1,1,2,2", "tiles_output/tile_0_1.jpg"⟩,
     ⟨1, 0, 0, 0, 1, 1, "0,0,1,1", "tiles_output/tile_1_0.jpg"⟩,
     ⟨1, 1, 1, 0, 2, 1, "1,0,2,1", "tiles_output/tile_1_1.jpg"⟩] := by
  norm_num [grid_plan, grid_cell, bounds_to_bbox, os_path_join, pyInt]
  rw [show List.range (Int.toNat 2) = [0, 1] from rfl]
  simp only [List.flatMap_cons, List.flatMap_nil, List.map_cons,
    List.map_nil, List.append_nil, List.cons_append, List.nil_append]
  norm_num
  decide

/-- C7 counterexample: with `srs = "EPSG3857"` (no colon) over a 2×2 grid,
the IndexError raised inside the first cell's `get_jpeg` call propagates
out of `download_wms_grid`'s loop (there is no `try` around it): the grid
job aborts with only 1 of its 4 cells dispatched and no HTTP call made,
refuting "no exception raised inside one grid cell's get_jpeg call
propagates out of download_wms_grid's loop". -/
theorem grid_abort_on_exception_counterexample :
    (download_wms_grid ⟨200, "img"⟩ (fun s => some s) [] "http://wms"
        "ortho" (0, 0, 2, 2) 2 2 1 "EPSG3857" "tiles_output" "tile"
        false true).result = .error .indexError ∧
    (download_wms_grid ⟨200, "img"⟩ (fun s => some s) [] "http://wms"
        "ortho" (0, 0, 2, 2) 2 2 1 "EPSG3857" "tiles_output" "tile"
        false true).dispatched = 1 ∧
    (download_wms_grid ⟨200, "img"⟩ (fun s => some s) [] "http://wms"
        "ortho" (0, 0, 2, 2) 2 2 1 "EPSG3857" "tiles_output" "tile"
        false true).httpCalls = 0 ∧
    (grid_plan (0, 0, 2, 2) 2 2 1 "tiles_output" "tile").calls.length
      = 4 := by
  unfold download_wms_grid
  rw [grid_2x2_calls]
  exact ⟨rfl, rfl, rfl, rfl⟩

/-- C7 (amended): a per-tile failure that `get_jpeg` signals by its return
value — an HTTP non-200 response or a conversion failure — is logged
inside the fetch and iteration continues to the next cell: whenever the
SRS contains a colon and every planned cell has a `.jpg` filename and a
parseable bbox, `download_wms_grid` dispatches every cell and returns
normally, for every HTTP response and conversion oracle (failing ones
included).  An exception raised inside a cell's `get_jpeg` (e.g. the
IndexError for a colon-less SRS), however, does propagate out of the loop
and aborts the remaining cells, as the counterexample shows. -/
theorem grid_continues_after_tile_failures (http : HttpResponse)
    (convert : String → Option String) (fs : FS)
    (wms_url layers : String) (full_bounds : ℚ × ℚ × ℚ × ℚ)
    (width height tile_px : ℕ) (srs output_dir pre : String)
    (save_metadata overwrite : Bool) (wkid : String)
    (hsrs : (pySplit srs ':')[1]? = some wkid)
    (hcells : ∀ c ∈ (grid_plan full_bounds width height tile_px
        output_dir pre).calls,
      pyEndsWith c.filename ".jpg" = true ∧
      (parseBbox c.bbox).isSome = true) :
    (download_wms_grid http convert fs wms_url layers full_bounds width
      height tile_px srs output_dir pre save_metadata overwrite).result
      = .ok () ∧
    (download_wms_grid http convert fs wms_url layers full_bounds width
      height tile_px srs output_dir pre save_metadata
      overwrite).dispatched =
      (grid_plan full_bounds width height tile_px output_dir
        pre).calls.length :=
  run_calls_total http convert wms_url layers srs tile_px save_metadata
    overwrite wkid hsrs
    (grid_plan full_bounds width height tile_px output_dir pre).calls fs
    hcells

theorem grid_continues_after_tile_failures_witness :
    ((pySplit "EPSG:900913" ':')[1]? = some "900913" ∧
      (∀ c ∈ (grid_plan (0, 0, 2, 2) 2 2 1 "tiles_output" "tile").calls,
        pyEndsWith c.filename ".jpg" = true ∧
        (parseBbox c.bbox).isSome = true)) ∧
    (download_wms_grid ⟨404, "err"⟩ (fun _ => none) [] "http://wms"
      "ortho" (0, 0, 2, 2) 2 2 1 "EPSG:900913" "tiles_output" "tile"
      false true).result = .ok () ∧
    (download_wms_grid ⟨404, "err"⟩ (fun _ => none) [] "http://wms"
      "ortho" (0, 0, 2, 2) 2 2 1 "EPSG:900913" "tiles_output" "tile"
      false true).dispatched =
      (grid_plan (0, 0, 2, 2) 2 2 1 "tiles_output"
        "tile").calls.length := by
  have hcells : ∀ c ∈ (grid_plan (0, 0, 2, 2) 2 2 1 "tiles_output"
      "tile").calls,
      pyEndsWith c.filename ".jpg" = true ∧
      (parseBbox c.bbox).isSome = true := by
    rw [grid_2x2_calls]; decide
  exact ⟨⟨by decide, hcells⟩,
    grid_continues_after_tile_failures ⟨404, "err"⟩ (fun _ => none) []
      "http://wms" "ortho" (0, 0, 2, 2) 2 2 1 "EPSG:900913"
      "tiles_output" "tile" false true "900913" (by decide) hcells⟩
